import Mathlib

/-!
Verification development for the mt5-trading-analyzer quantitative analytics
core.  Python floats are modelled as exact rationals (ℚ); time-series indices
(pandas timestamps) as integers (ℤ), with `(d2 - d1).days` modelled by integer
subtraction; pandas Series as lists of (index, value) pairs.  IEEE `sqrt` is
modelled by the deterministic rational approximation `floatSqrt` (exact on
perfect squares, strictly positive on positive input, zero on zero); Python's
banker's rounding by `pythonRound`; Python's stable `sorted` by
`List.insertionSort`.  Fallible float results (NaN/±inf from division by zero)
are modelled as `Option` values with `none` for a non-finite outcome.
-/

/-- Arithmetic mean of a list of rationals (`Series.mean()`); 0 on the empty
list (only ever used on lists whose nonemptiness the callers guard). -/
def listMean (l : List ℚ) : ℚ := l.sum / l.length

/-- Sample variance with one delta degree of freedom (the square of
`Series.std()`, pandas default `ddof=1`); callers guard `2 ≤ length`. -/
def sampleVar (l : List ℚ) : ℚ :=
  (l.map (fun x => (x - listMean l) ^ 2)).sum / ((l.length : ℚ) - 1)

/-- Deterministic rational model of IEEE floating-point square root:
`√(n/d) = √(n·d)/d`, computed with 8 guard digits via `Nat.sqrt`.  Exact on
`0` and on perfect squares of naturals; strictly positive on positive input;
`0` on nonpositive input. -/
def floatSqrt (q : ℚ) : ℚ :=
  if q ≤ 0 then 0
  else (Nat.sqrt (q.num.toNat * q.den * 10 ^ 16) : ℚ) / (q.den * 10 ^ 8)

/-- Sample standard deviation (`Series.std()`, `ddof=1`) under the `floatSqrt`
model of IEEE square root. -/
def sampleStd (l : List ℚ) : ℚ := floatSqrt (sampleVar l)

/-- Python's built-in `round` to an integer: round half to even. -/
def pythonRound (q : ℚ) : ℤ :=
  let f := ⌊q⌋
  let r := q - f
  if r < 1 / 2 then f
  else if 1 / 2 < r then f + 1
  else if 2 ∣ f then f else f + 1

/-- Python slice `l[-n:]`: the last `n` elements (the whole list if shorter). -/
def lastSlice (n : ℕ) (l : List α) : List α := l.drop (l.length - n)

/-- Python `min` over a nonempty numeric list; 0 on the empty list (the
sources guard emptiness with `... if xs else 0`). -/
def listMin (l : List ℚ) : ℚ :=
  match l with
  | [] => 0
  | x :: xs => xs.foldl min x

/-- Python `max` over a nonempty list of integers; 0 on the empty list. -/
def listMaxInt (l : List ℤ) : ℤ :=
  match l with
  | [] => 0
  | x :: xs => xs.foldl max x

/-- Empirical quantile with linear interpolation (pandas
`Series.quantile(q)` / numpy default): on the ascending sort `s` of the data,
position `h = q·(n−1)`, result `s[⌊h⌋] + (h−⌊h⌋)·(s[⌊h⌋+1] − s[⌊h⌋])` (upper
index clamped at `n−1`); 0 on empty data. -/
def quantileLinear (xs : List ℚ) (q : ℚ) : ℚ :=
  let s := xs.insertionSort (· ≤ ·)
  if s.isEmpty then 0
  else
    let n := s.length
    let h : ℚ := q * ((n : ℚ) - 1)
    let i : ℕ := (⌊h⌋).toNat
    let lo := s.getD i 0
    let hi := s.getD (min (i + 1) (n - 1)) 0
    lo + (h - (i : ℚ)) * (hi - lo)

/-! ## Drawdown series (utils/helpers.py `calculate_drawdown` and the
inline cummax/percent computation of analysis modules)

An equity series is a list of (date, equity) pairs.  The drawdown series is
`(equity - cummax(equity)) / cummax(equity) * 100` with the same index. -/

/-- Running pass of the drawdown computation, carrying the cumulative
maximum `m`, keeping the equity value alongside the drawdown. -/
def ddGo (m : ℚ) : List (ℤ × ℚ) → List (ℤ × ℚ × ℚ)
  | [] => []
  | (d, e) :: rest =>
    let m' := max m e
    (d, e, (e - m') / m' * 100) :: ddGo m' rest

/-- Drawdown series of `analysis/drawdown_analyzer.py` lines 35–36 (cummax
then percentage), zipped with the equity values, which
`identify_drawdowns` reads back via index lookups. -/
def ddSeries (equity : List (ℤ × ℚ)) : List (ℤ × ℚ × ℚ) :=
  match equity with
  | [] => []
  | (d, e) :: rest => ddGo e ((d, e) :: rest)

/-- Running pass of `calculate_drawdown`, carrying the cumulative maximum. -/
def cdGo (m : ℚ) : List (ℤ × ℚ) → List (ℤ × ℚ)
  | [] => []
  | (d, e) :: rest =>
    let m' := max m e
    (d, (e - m') / m' * 100) :: cdGo m' rest

/-- utils/helpers.py `calculate_drawdown`: drawdown percentage series from an
equity series (empty on empty input). -/
def calculate_drawdown (equity : List (ℤ × ℚ)) : List (ℤ × ℚ) :=
  match equity with
  | [] => []
  | (d, e) :: rest => cdGo e ((d, e) :: rest)

/-! ## DrawdownAnalyzer.identify_drawdowns (analysis/drawdown_analyzer.py) -/

/-- One entry of the list returned by `identify_drawdowns` (the Python dict
with these keys); `end_date = none` models the `None` of a still-active
episode and `active` the `"active": True` flag (absent, hence `false`, on
completed episodes). -/
structure DDEpisode where
  start_date : ℤ
  bottom_date : ℤ
  end_date : Option ℤ
  max_drawdown_pct : ℚ
  drawdown_amount_pct : ℚ
  recovery_amount_pct : ℚ
  drawdown_duration_days : ℤ
  recovery_duration_days : ℤ
  total_duration_days : ℤ
  pain_index : ℚ
  recovery_ratio : ℚ
  active : Bool
deriving DecidableEq

/-- Loop state of `identify_drawdowns`: the Python locals `in_drawdown`,
`start_idx`, `start_value`, `current_dd`, `current_idx`, the accumulated
episode list, and `curBottom`, the equity value at `current_idx` (Python
re-reads it as `equity_series[current_idx]`; the index lookup is modelled by
carrying the value, which coincides for the unique dates of an equity
index).  The `None` resets of the Python locals are modelled by zero resets;
the fields are never read before being set while `in_drawdown` holds. -/
structure IdSt where
  inDD : Bool
  startIdx : ℤ
  startVal : ℚ
  curDd : ℚ
  curIdx : ℤ
  curBottom : ℚ
  eps : List DDEpisode

/-- Episode record built when a drawdown episode closes (`value >= 0` branch
of `identify_drawdowns`): `date` is the closing index, `recVal` the equity
there. -/
def closeEpisode (st : IdSt) (date : ℤ) (recVal : ℚ) : DDEpisode :=
  let amount := (st.curBottom - st.startVal) / st.startVal * 100
  let recovery := (recVal - st.curBottom) / st.curBottom * 100
  { start_date := st.startIdx
    bottom_date := st.curIdx
    end_date := some date
    max_drawdown_pct := st.curDd
    drawdown_amount_pct := amount
    recovery_amount_pct := recovery
    drawdown_duration_days := st.curIdx - st.startIdx
    recovery_duration_days := date - st.curIdx
    total_duration_days := date - st.startIdx
    pain_index := |st.curDd| * ((date - st.startIdx : ℤ) : ℚ) / 365
    recovery_ratio := if amount ≠ 0 then |recovery / amount| else 0
    active := false }

/-- Episode record built after the loop when the series ends still in
drawdown: `lastDate`/`lastVal` are the final index and equity value. -/
def activeEpisode (st : IdSt) (lastDate : ℤ) (lastVal : ℚ) : DDEpisode :=
  let amount := (st.curBottom - st.startVal) / st.startVal * 100
  let recovery := (lastVal - st.curBottom) / st.curBottom * 100
  { start_date := st.startIdx
    bottom_date := st.curIdx
    end_date := none
    max_drawdown_pct := st.curDd
    drawdown_amount_pct := amount
    recovery_amount_pct := recovery
    drawdown_duration_days := st.curIdx - st.startIdx
    recovery_duration_days := 0
    total_duration_days := lastDate - st.startIdx
    pain_index := |st.curDd| * ((lastDate - st.startIdx : ℤ) : ℚ) / 365
    recovery_ratio := if amount ≠ 0 then |recovery / amount| else 0
    active := true }

/-- One iteration of the `for date, value in drawdown_series.items()` loop of
`identify_drawdowns`, keyed on `in_drawdown` (Python's
`if not in_drawdown and value < threshold_pct: / elif in_drawdown:` pair of
guards); `x = (date, equity, drawdown)`. -/
def idStep (thr : ℚ) (st : IdSt) (x : ℤ × ℚ × ℚ) : IdSt :=
  match st.inDD, x with
  | false, (date, e, v) =>
    if v < thr then ⟨true, date, e, v, date, e, st.eps⟩ else st
  | true, (date, e, v) =>
    if v < st.curDd then { st with curDd := v, curIdx := date, curBottom := e }
    else if 0 ≤ v then
      ⟨false, 0, 0, 0, 0, 0, st.eps ++ [closeEpisode st date e]⟩
    else st

/-- DrawdownAnalyzer.identify_drawdowns: segments the drawdown series of an
equity series into episodes crossing strictly below `threshold_pct`, closing
when drawdown returns to ≥ 0, appending a final active episode when the
series ends in drawdown; returns `[]` for fewer than 5 points; the result is
sorted (stably) by `max_drawdown_pct` ascending. -/
def identify_drawdowns (equity : List (ℤ × ℚ)) (threshold_pct : ℚ) : List DDEpisode :=
  if equity.length < 5 then []
  else
    let dd := ddSeries equity
    let fin := dd.foldl (idStep threshold_pct) ⟨false, 0, 0, 0, 0, 0, []⟩
    let eps :=
      if fin.inDD then
        match dd.getLast? with
        | some (d, e, _) => fin.eps ++ [activeEpisode fin d e]
        | none => fin.eps
      else fin.eps
    List.insertionSort (fun a b => a.max_drawdown_pct ≤ b.max_drawdown_pct) eps

/-! ## RiskMetrics.analyze_drawdown_profile (analysis/risk_metrics.py) -/

/-- One entry of the `significant_drawdowns` list of
`analyze_drawdown_profile` (dict keys `start`, `end`, `max_drawdown`,
`duration_days`, `recovery_duration`); the source always stores
`recovery_duration = None` ("À calculer"), modelled as an always-`none`
option. -/
structure ProfEpisode where
  start : ℤ
  end_date : ℤ
  max_drawdown : ℚ
  duration_days : ℤ
  recovery_duration : Option ℤ
deriving DecidableEq

/-- Loop state of `analyze_drawdown_profile`: `in_drawdown`, `start_idx`
(zero-reset models the Python `None` reset), `current_dd`, accumulated
episodes. -/
structure PrSt where
  inDD : Bool
  startIdx : ℤ
  curDd : ℚ
  eps : List ProfEpisode

/-- One iteration of the `for date, dd in drawdown_series.items()` loop of
`analyze_drawdown_profile`, keyed on `in_drawdown` exactly as in `idStep`;
`x = (date, drawdown)`. -/
def profStep (thr : ℚ) (st : PrSt) (x : ℤ × ℚ) : PrSt :=
  match st.inDD, x with
  | false, (date, dd) =>
    if dd < thr then ⟨true, date, dd, st.eps⟩ else st
  | true, (date, dd) =>
    if dd < st.curDd then { st with curDd := dd }
    else if 0 ≤ dd then
      ⟨false, 0, 0, st.eps ++ [⟨st.startIdx, date, st.curDd, date - st.startIdx, none⟩]⟩
    else st

/-- The statistics dict returned by `analyze_drawdown_profile`. -/
structure DDProfileStats where
  count : ℕ
  avg_drawdown : ℚ
  avg_duration : ℚ
  max_drawdown : ℚ
  max_duration : ℤ
  drawdowns : List ProfEpisode
deriving DecidableEq

/-- RiskMetrics.analyze_drawdown_profile: same episode segmentation as
`identify_drawdowns` run over `calculate_drawdown`, but returning the empty
dict (modelled `none`) for fewer than 10 points, keeping episodes in
chronological order with summary statistics, and recording the last index
(rather than `None`) as `end` of a still-active trailing episode. -/
def analyze_drawdown_profile (equity : List (ℤ × ℚ)) (threshold : ℚ) :
    Option DDProfileStats :=
  if equity.length < 10 then none
  else
    let dd := calculate_drawdown equity
    let fin := dd.foldl (profStep threshold) ⟨false, 0, 0, []⟩
    let eps :=
      if fin.inDD then
        match dd.getLast? with
        | some (d, _) =>
            fin.eps ++ [⟨fin.startIdx, d, fin.curDd, d - fin.startIdx, none⟩]
        | none => fin.eps
      else fin.eps
    if eps.isEmpty then some ⟨0, 0, 0, 0, 0, []⟩
    else
      let mdds := eps.map (·.max_drawdown)
      let durs := eps.map (·.duration_days)
      some ⟨eps.length, mdds.sum / eps.length, ((durs.sum : ℤ) : ℚ) / eps.length,
            listMin mdds, listMaxInt durs, eps⟩

/-! ## RiskMetrics value-at-risk family (analysis/risk_metrics.py)

`scipy.stats.norm.ppf` is external library code; it is modelled from the
spec's stated values ("z is the inverse-normal quantile at 1−confidence
(e.g., 1.645 for 95%, 2.326 for 99%)") as a table on the two quantiles the
spec names, 0 elsewhere (no claim depends on other quantiles). -/

/-- Modelled from the spec: `scipy.stats.norm.ppf` at the two tail
probabilities used by the claims (0.05 ↦ −1.645, 0.01 ↦ −2.326). -/
def normPpf (p : ℚ) : ℚ :=
  if p = 1 / 20 then -1645 / 1000
  else if p = 1 / 100 then -2326 / 1000
  else 0

/-- RiskMetrics.calculate_value_at_risk: parametric VaR
`-(mean + z·std)·√period·100`; 0 for fewer than 2 returns. -/
def calculate_value_at_risk (returns : List ℚ) (confidence_level : ℚ)
    (period_days : ℕ) : ℚ :=
  if returns.length < 2 then 0
  else
    let mean := listMean returns
    let std := sampleStd returns
    let scaling_factor := floatSqrt period_days
    let z_score := normPpf (1 - confidence_level)
    let var := -(mean + z_score * std) * scaling_factor * 100
    var

/-- RiskMetrics.calculate_expected_shortfall: mean of the returns at or below
the `(1−confidence)` linear-interpolation quantile, scaled by `√period·100`
and negated; 0 for fewer than 2 returns, 0 when the tail set is empty, and 0
when the quantile argument leaves [0,1] (pandas raises there and the handler
returns 0). -/
def calculate_expected_shortfall (returns : List ℚ) (confidence_level : ℚ)
    (period_days : ℕ) : ℚ :=
  if returns.length < 2 then 0
  else
    let var_quantile := 1 - confidence_level
    if var_quantile < 0 ∨ 1 < var_quantile then 0
    else
      let var_threshold := quantileLinear returns var_quantile
      let tail_returns := returns.filter (· ≤ var_threshold)
      if tail_returns.isEmpty then 0
      else -(listMean tail_returns * floatSqrt period_days * 100)

/-- RiskMetrics.calculate_var_by_historical: historical VaR
`-quantile(returns, 1−confidence)·√period·100`; 0 for fewer than 2 returns
and 0 when the quantile argument leaves [0,1] (pandas raises there and the
handler returns 0). -/
def calculate_var_by_historical (returns : List ℚ) (confidence_level : ℚ)
    (period_days : ℕ) : ℚ :=
  if returns.length < 2 then 0
  else
    let var_quantile := 1 - confidence_level
    if var_quantile < 0 ∨ 1 < var_quantile then 0
    else -(quantileLinear returns var_quantile) * floatSqrt period_days * 100

/-! ## Monte Carlo VaR and the numpy global random state

The numpy Mersenne-Twister generator and its Gaussian transform are external
library code; they are modelled by a deterministic linear-congruential
generator seeded exactly where the source calls `np.random.seed(42)`.  Only
the state-threading behaviour (seeding discards the incoming global state)
matters to the claims, not the sampled values. -/

/-- The numpy global random state, modelled as a single natural number. -/
structure NpRandomState where
  state : ℕ
deriving DecidableEq

/-- Model of `np.random.seed`. -/
def npSeed (n : ℕ) : NpRandomState := ⟨n⟩

/-- One step of the modelled generator (a standard LCG modulo 2³¹). -/
def lcgNext (s : ℕ) : ℕ := (1103515245 * s + 12345) % 2147483648

/-- Model of `np.random.normal(mean, std, n)` on the global state: returns
`n` deterministic pseudo-draws `mean + std·z` together with the advanced
state. -/
def npNormalDraws (rng : NpRandomState) (mean std : ℚ) : ℕ → List ℚ × NpRandomState
  | 0 => ([], rng)
  | n + 1 =>
    let s' := lcgNext rng.state
    let u : ℚ := (s' : ℚ) / 2147483648
    let z := 2 * u - 1
    let (rest, rf) := npNormalDraws ⟨s'⟩ mean std n
    ((mean + std * z) :: rest, rf)

/-- `np.percentile(xs, p)`: the `p/100` linear-interpolation quantile. -/
def npPercentile (xs : List ℚ) (p : ℚ) : ℚ := quantileLinear xs (p / 100)

/-- RiskMetrics.calculate_var_by_monte_carlo, with the numpy global random
state passed explicitly: seeds the state with 42, draws `simulations` normal
pseudo-samples from the fitted mean/std, and negates their
`(1−confidence)·100` percentile scaled by `√period·100`; 0 for fewer than 2
returns, and 0 when the percentile argument leaves [0,100] (numpy raises
there and the handler returns 0). -/
def calculate_var_by_monte_carlo (returns : List ℚ) (confidence_level : ℚ)
    (period_days : ℕ) (simulations : ℕ) (rng : NpRandomState) :
    ℚ × NpRandomState :=
  if returns.length < 2 then (0, rng)
  else
    let mean := listMean returns
    let std := sampleStd returns
    let scaling_factor := floatSqrt period_days
    let seeded := npSeed 42
    let (simulated_returns, rng') := npNormalDraws seeded mean std simulations
    let p := (1 - confidence_level) * 100
    if p < 0 ∨ 100 < p then (0, rng')
    else (-(npPercentile simulated_returns p) * scaling_factor * 100, rng')

/-! ## calculate_sharpe_ratio (utils/helpers.py) -/

/-- Modelled from the float computation `(1 + rate) ** (1 / periods) - 1` of
`calculate_sharpe_ratio` (a real-exponent power, irrational in general), as a
deterministic rational stand-in; every property verified below is invariant
under its exact value, because subtracting a constant from every return does
not change whether the excess returns have zero spread. -/
def periodicRate (rate : ℚ) (periods : ℕ) : ℚ := rate / periods

/-- utils/helpers.py `calculate_sharpe_ratio`:
`mean(excess) / std(excess) * √periods` over the excess returns
`returns − rf_period`; `some 0` on the empty series.  A non-finite float
outcome is modelled as `none`: with a single return, `std(ddof=1)` is NaN
and NaN propagates; with zero standard deviation, the division yields
NaN/±inf.  No exception escapes in either case. -/
def calculate_sharpe_ratio (returns : List ℚ) (risk_free_rate : ℚ)
    (periods_per_year : ℕ) : Option ℚ :=
  if returns.length = 0 then some 0
  else
    let rf_period := periodicRate risk_free_rate periods_per_year
    let excess_returns := returns.map (· - rf_period)
    if returns.length = 1 then none
    else
      let sd := sampleStd excess_returns
      if sd = 0 then none
      else some (listMean excess_returns / sd * floatSqrt periods_per_year)

/-! ## RiskScoreCalculator (analysis/risk_score_calculator.py)

The per-style D-Leverage thresholds come from
`utils/constants.py` `TRADING_CATEGORIES[...]["optimal_max"]`
(Scalping 16.25, Intraday 13.0, Swing 9.75). -/

/-- `TRADING_CATEGORIES["Scalping"]["optimal_max"]` (utils/constants.py). -/
def scalpingOptimalMax : ℚ := 1625 / 100

/-- `TRADING_CATEGORIES["Intraday"]["optimal_max"]` (utils/constants.py). -/
def intradayOptimalMax : ℚ := 13

/-- `TRADING_CATEGORIES["Swing"]["optimal_max"]` (utils/constants.py). -/
def swingOptimalMax : ℚ := 975 / 100

/-- Piecewise-linear D-Leverage component score of
`calculate_global_risk_score`, parameterised by the per-style thresholds
(`threshold_min = 0`, `threshold_extreme = threshold_max * 1.5`). -/
def dLeverageScoreCore (tOpt tMax : ℚ) (d : ℚ) : ℚ :=
  let tExt := tMax * (3 / 2)
  if d ≤ 0 then 0
  else if d ≤ tOpt then 20 + d / tOpt * 30
  else if d ≤ tMax then 50 + (d - tOpt) / (tMax - tOpt) * 20
  else if d ≤ tExt then 70 + (d - tMax) / (tExt - tMax) * 30
  else 100

/-- D-Leverage component score: style selects the thresholds
(`scalping` ↦ (10, 16.25), `intraday` ↦ (8, 13), anything else is the
`swing` branch ↦ (5, 9.75)). -/
def dLeverageScore (style : String) (d : ℚ) : ℚ :=
  if style = "scalping" then dLeverageScoreCore 10 scalpingOptimalMax d
  else if style = "intraday" then dLeverageScoreCore 8 intradayOptimalMax d
  else dLeverageScoreCore 5 swingOptimalMax d

/-- Monthly-VaR component score (thresholds 5 / 10 / 15 / 25). -/
def varScore (v : ℚ) : ℚ :=
  if v ≤ 5 then v / 5 * 30
  else if v ≤ 10 then 30 + (v - 5) / (10 - 5) * 30
  else if v ≤ 15 then 60 + (v - 10) / (15 - 10) * 20
  else if v ≤ 25 then 80 + (v - 15) / (25 - 15) * 20
  else 100

/-- Drawdown component score on `abs(max_drawdown)`
(thresholds 5 / 15 / 25 / 40). -/
def drawdownScore (x : ℚ) : ℚ :=
  let dd := |x|
  if dd ≤ 5 then dd / 5 * 20
  else if dd ≤ 15 then 20 + (dd - 5) / (15 - 5) * 40
  else if dd ≤ 25 then 60 + (dd - 15) / (25 - 15) * 20
  else if dd ≤ 40 then 80 + (dd - 25) / (40 - 25) * 20
  else 100

/-- Margin component score (thresholds 20 / 40 / 70 / 90). -/
def marginScore (m : ℚ) : ℚ :=
  if m ≤ 20 then m / 20 * 20
  else if m ≤ 40 then 20 + (m - 20) / (40 - 20) * 30
  else if m ≤ 70 then 50 + (m - 40) / (70 - 40) * 30
  else if m ≤ 90 then 80 + (m - 70) / (90 - 70) * 20
  else 100

/-- Concentration component score: plain linear `×100`. -/
def concentrationScore (c : ℚ) : ℚ := c * 100

/-- Volatility component score (thresholds 10 / 20 / 30 / 50). -/
def volatilityScore (v : ℚ) : ℚ :=
  if v ≤ 10 then v / 10 * 25
  else if v ≤ 20 then 25 + (v - 10) / (20 - 10) * 25
  else if v ≤ 30 then 50 + (v - 20) / (30 - 20) * 25
  else if v ≤ 50 then 75 + (v - 30) / (50 - 30) * 25
  else 100

/-- The `component_scores` dict (keys `d_leverage`, `var`, `drawdown`,
`margin_pct`, `concentration`, `volatility`). -/
structure ComponentScores where
  d_leverage : ℚ
  var : ℚ
  drawdown : ℚ
  margin_pct : ℚ
  concentration : ℚ
  volatility : ℚ
deriving DecidableEq

/-- The `metrics` input dict of `calculate_global_risk_score`: each required
key is present (`some`) or absent (`none`). -/
structure RiskMetricsInput where
  d_leverage : Option ℚ
  trading_style : Option String
  var_monthly : Option ℚ
  max_drawdown : Option ℚ
  margin_pct : Option ℚ
  concentration : Option ℚ
  volatility : Option ℚ

/-- The dict returned by `calculate_global_risk_score`; `details = none`
models the empty `details` dict of the missing-key branch. -/
structure RiskScoreResult where
  score : ℤ
  details : Option ComponentScores
  rating : String
  color : String
deriving DecidableEq

/-- Rating bands of `calculate_global_risk_score`
(<20 / <40 / <60 / <80 / else). -/
def ratingOfScore (s : ℤ) : String :=
  if s < 20 then "Très faible"
  else if s < 40 then "Faible"
  else if s < 60 then "Modéré"
  else if s < 80 then "Élevé"
  else "Extrême"

/-- Colour bands of `calculate_global_risk_score`. -/
def colorOfScore (s : ℤ) : String :=
  if s < 20 then "#0070C0"
  else if s < 40 then "#00B050"
  else if s < 60 then "#FFC000"
  else if s < 80 then "#FF6600"
  else "#C00000"

/-- RiskScoreCalculator.calculate_global_risk_score: neutral default
(50, empty details, "Indéterminé", gray) when any of the seven required keys
is missing; otherwise the six component scores combined with the fixed
weights 0.25 / 0.20 / 0.15 / 0.15 / 0.15 / 0.10, rounded half-to-even, with
the band rating and colour. -/
def calculate_global_risk_score (m : RiskMetricsInput) : RiskScoreResult :=
  if m.d_leverage.isNone || m.trading_style.isNone || m.var_monthly.isNone ||
      m.max_drawdown.isNone || m.margin_pct.isNone || m.concentration.isNone ||
      m.volatility.isNone then
    ⟨50, none, "Indéterminé", "gray"⟩
  else
    let comps : ComponentScores :=
      ⟨dLeverageScore (m.trading_style.getD "") (m.d_leverage.getD 0),
       varScore (m.var_monthly.getD 0),
       drawdownScore (m.max_drawdown.getD 0),
       marginScore (m.margin_pct.getD 0),
       concentrationScore (m.concentration.getD 0),
       volatilityScore (m.volatility.getD 0)⟩
    let global_score :=
      pythonRound (comps.d_leverage * (25 / 100) + comps.var * (20 / 100) +
        comps.drawdown * (15 / 100) + comps.margin_pct * (15 / 100) +
        comps.concentration * (15 / 100) + comps.volatility * (10 / 100))
    ⟨global_score, some comps, ratingOfScore global_score,
     colorOfScore global_score⟩

/-! ## AlertsEngine (analysis/alerts_engine.py)

The engine reads live values through the data manager; those reads
(`connected`, `account_info`, `get_current_margin_percentage`,
`calculate_d_leverage`, `calculate_monthly_var`, `positions`, `account
balance`, `equity_data`) are modelled as fields of an input snapshot, and the
engine's two stored lists as an explicit state threaded through
`check_alerts`.  `datetime.now()` is modelled by the snapshot's `now`
string. -/

/-- Python `str(n)` for a nonnegative integer with left zero padding to
`width` digits. -/
def natPad (width : ℕ) (n : ℕ) : String :=
  let s := toString n
  String.mk (List.replicate (width - s.length) '0') ++ s

/-- Python format `f"{q:.kf}"`: fixed-point rendering with `k` decimals
(banker's rounding at the last digit, as for binary-exact values). -/
def fmtFixed (k : ℕ) (q : ℚ) : String :=
  let n := pythonRound (q * 10 ^ k)
  let sign := if n < 0 then "-" else ""
  let a := n.natAbs
  if k = 0 then sign ++ toString a
  else sign ++ toString (a / 10 ^ k) ++ "." ++ natPad k (a % 10 ^ k)

/-- Python `str` of a threshold number: integers without a decimal point,
non-integral rationals in fixed-point (enough for the config values). -/
def pyNumStr (q : ℚ) : String :=
  if q.den = 1 then
    (if q.num < 0 then "-" else "") ++ toString q.num.natAbs
  else fmtFixed 2 q

/-- An alert dict created by `create_alert`
(keys `timestamp`, `type`, `message`, `value`). -/
structure TradingAlert where
  timestamp : String
  type : String
  message : String
  value : String
deriving DecidableEq

/-- An optimization dict created by `create_optimization`
(keys `timestamp`, `title`, `message`). -/
structure OptimizationSuggestion where
  timestamp : String
  title : String
  message : String
deriving DecidableEq

/-- The seven alert thresholds (`config_manager.get_alert_thresholds()`,
defaults in `load_thresholds`). -/
structure AlertThresholds where
  margin_pct : ℚ
  daily_loss : ℚ
  drawdown : ℚ
  d_leverage : ℚ
  var_monthly : ℚ
  correlation : ℚ
  sector_concentration : ℚ

/-- The default thresholds of `load_thresholds`. -/
def defaultAlertThresholds : AlertThresholds :=
  ⟨50, -5, -15, 1625 / 100, 12, 8 / 10, 30⟩

/-- The engine's stored history (`self.alerts`, `self.optimizations`). -/
structure AlertsState where
  alerts : List TradingAlert
  optimizations : List OptimizationSuggestion
deriving DecidableEq

/-- Snapshot of everything `check_alerts` reads from the data manager:
connection flag, presence of the account snapshot, wall-clock string, the
current margin percentage, D-Leverage, monthly VaR, the open positions'
floating profits (`none` models `positions is None`), the account balance,
and the equity series values. -/
structure AlertsInput where
  connected : Bool
  hasAccountInfo : Bool
  now : String
  marginPct : ℚ
  dLeverage : ℚ
  monthlyVar : ℚ
  positionProfits : Option (List ℚ)
  balance : ℚ
  equityData : List ℚ

/-- AlertsEngine.calculate_daily_pnl: floating profit of the open positions
as a percentage of balance; 0 with no account snapshot or no positions. -/
def calculate_daily_pnl (inp : AlertsInput) : ℚ :=
  if ¬inp.hasAccountInfo then 0
  else
    match inp.positionProfits with
    | none => 0
    | some [] => 0
    | some profits => profits.sum / inp.balance * 100

/-- Last value of the drawdown series of a plain equity value list
(`drawdown_series.iloc[-1]` in the drawdown check of `check_alerts`);
0 on the empty list. -/
def currentDrawdownOf (l : List ℚ) : ℚ :=
  match l with
  | [] => 0
  | x :: xs =>
    (xs.foldl (fun acc e =>
      let m' := max acc.1 e
      (m', (e - m') / m' * 100)) (x, (x - x) / x * 100)).2

/-- AlertsEngine.check_alerts: evaluates the margin, D-Leverage, monthly-VaR,
daily-loss and drawdown thresholds against the snapshot, returning the new
alert/optimization lists and the updated stored history, capped to the last
50 alerts and 20 optimizations.  Short-circuits to empty lists with the
state untouched when disconnected or without an account snapshot.  A
D-Leverage breach reaches `TRADING_CATEGORIES[...]["max_d_leverage"]`, a key
absent from utils/constants.py, so that path raises KeyError, which the
handler turns into empty lists with the state untouched. -/
def check_alerts (thr : AlertThresholds) (inp : AlertsInput)
    (st : AlertsState) :
    (List TradingAlert × List OptimizationSuggestion) × AlertsState :=
  if ¬inp.connected then (([], []), st)
  else if ¬inp.hasAccountInfo then (([], []), st)
  else if thr.d_leverage < inp.dLeverage then (([], []), st)
  else
    let marginPart :
        List TradingAlert × List OptimizationSuggestion :=
      if thr.margin_pct < inp.marginPct then
        ([⟨inp.now, "RISQUE", "Niveau de marge élevé",
            fmtFixed 1 inp.marginPct ++ "%"⟩],
         [⟨inp.now, "RÉDUCTION DE MARGE",
            "Le niveau de marge actuel (" ++ fmtFixed 1 inp.marginPct ++
            "%) dépasse le seuil recommandé de " ++ pyNumStr thr.margin_pct ++
            "%. Envisagez de réduire les positions ou d'augmenter votre capital pour améliorer votre sécurité de trading."⟩])
      else ([], [])
    let varPart :
        List TradingAlert × List OptimizationSuggestion :=
      if thr.var_monthly < inp.monthlyVar then
        ([⟨inp.now, "RISQUE", "VaR mensuelle élevée",
            fmtFixed 2 inp.monthlyVar ++ "%"⟩],
         [⟨inp.now, "RÉDUCTION DE LA VAR",
            "Votre VaR mensuelle (" ++ fmtFixed 2 inp.monthlyVar ++
            "%) est supérieure au seuil configuré de " ++
            pyNumStr thr.var_monthly ++
            "%. Envisagez de diversifier davantage votre portefeuille ou de réduire l'exposition sur les instruments volatils."⟩])
      else ([], [])
    let daily_pnl := calculate_daily_pnl inp
    let dailyPart :
        List TradingAlert × List OptimizationSuggestion :=
      if daily_pnl < thr.daily_loss then
        ([⟨inp.now, "RISQUE", "Perte journalière importante",
            fmtFixed 2 daily_pnl ++ "%"⟩],
         [⟨inp.now, "GESTION DE RISQUE QUOTIDIEN",
            "Votre perte journalière (" ++ fmtFixed 2 daily_pnl ++
            "%) dépasse le seuil configuré de " ++ pyNumStr |thr.daily_loss| ++
            "%. Envisagez de réduire votre exposition pour le reste de la journée ou d'appliquer des stops plus serrés."⟩])
      else ([], [])
    let ddPart :
        List TradingAlert × List OptimizationSuggestion :=
      if inp.equityData.isEmpty then ([], [])
      else
        let current_drawdown := currentDrawdownOf inp.equityData
        if current_drawdown < thr.drawdown then
          ([⟨inp.now, "RISQUE", "Drawdown important",
              fmtFixed 2 current_drawdown ++ "%"⟩],
           [⟨inp.now, "GESTION DE DRAWDOWN",
              "Votre drawdown actuel (" ++ fmtFixed 2 current_drawdown ++
              "%) dépasse le seuil configuré de " ++ pyNumStr |thr.drawdown| ++
              "%. Envisagez de réduire temporairement la taille des positions et de revoir votre stratégie de gestion des risques."⟩])
        else ([], [])
    let new_alerts := marginPart.1 ++ varPart.1 ++ dailyPart.1 ++ ddPart.1
    let new_optimizations := marginPart.2 ++ varPart.2 ++ dailyPart.2 ++ ddPart.2
    ((new_alerts, new_optimizations),
     ⟨lastSlice 50 (st.alerts ++ new_alerts),
      lastSlice 20 (st.optimizations ++ new_optimizations)⟩)

/-! ## Basic lemmas about the numeric helpers -/

/-- The square-root model is zero at zero. -/
theorem floatSqrt_zero : floatSqrt 0 = 0 := by simp [floatSqrt]

/-- The square-root model is nonnegative. -/
theorem floatSqrt_nonneg (q : ℚ) : 0 ≤ floatSqrt q := by
  unfold floatSqrt
  split_ifs
  · exact le_refl 0
  · positivity

/-- The square-root model is exact at one. -/
theorem floatSqrt_one : floatSqrt 1 = 1 := by
  have h : ((1 : ℚ).num.toNat * (1 : ℚ).den * 10 ^ 16) = 10 ^ 8 * 10 ^ 8 := by
    norm_num
  rw [floatSqrt, if_neg (by norm_num), h, Nat.sqrt_eq]
  norm_num

/-- Banker's rounding does not go below the floor. -/
theorem pythonRound_ge_floor (q : ℚ) : ⌊q⌋ ≤ pythonRound q := by
  simp only [pythonRound]
  split_ifs <;> omega

/-- Banker's rounding of a nonnegative rational is nonnegative. -/
theorem pythonRound_nonneg {q : ℚ} (h : 0 ≤ q) : 0 ≤ pythonRound q := by
  have h0 : (0 : ℤ) ≤ ⌊q⌋ := Int.floor_nonneg.mpr h
  have := pythonRound_ge_floor q
  omega

/-- Banker's rounding respects an integer upper bound. -/
theorem pythonRound_le {q : ℚ} {B : ℤ} (h : q ≤ (B : ℚ)) : pythonRound q ≤ B := by
  have hfb : ⌊q⌋ ≤ B := by
    have := Int.floor_le_floor h
    simpa using this
  simp only [pythonRound]
  split_ifs with h1 h2 h3
  · exact hfb
  · have hlt : ⌊q⌋ < B := by
      rcases lt_or_eq_of_le hfb with hl | he
      · exact hl
      · exfalso
        have hq : (⌊q⌋ : ℚ) = (B : ℚ) := by exact_mod_cast he
        have hle : q - (⌊q⌋ : ℚ) ≤ 0 := by rw [hq]; linarith
        linarith
    omega
  · exact hfb
  · have hlt : ⌊q⌋ < B := by
      rcases lt_or_eq_of_le hfb with hl | he
      · exact hl
      · exfalso
        have hq : (⌊q⌋ : ℚ) = (B : ℚ) := by exact_mod_cast he
        have hle : q - (⌊q⌋ : ℚ) ≤ 0 := by rw [hq]; linarith
        have hge : (1 : ℚ) / 2 ≤ q - (⌊q⌋ : ℚ) := by linarith [not_lt.mp h1]
        linarith
    omega

/-- Sum of a constant list. -/
theorem listSum_const {l : List ℚ} {c : ℚ} (h : ∀ x ∈ l, x = c) :
    l.sum = l.length * c := by
  induction l with
  | nil => simp
  | cons a t ih =>
    simp only [List.mem_cons, forall_eq_or_imp] at h
    simp only [List.sum_cons, List.length_cons, h.1, ih h.2]
    push_cast
    ring

/-- Mean of a nonempty constant list. -/
theorem listMean_const {l : List ℚ} {c : ℚ} (hne : l ≠ [])
    (h : ∀ x ∈ l, x = c) : listMean l = c := by
  unfold listMean
  rw [listSum_const h]
  have hlen : (l.length : ℚ) ≠ 0 := by
    exact_mod_cast Nat.pos_iff_ne_zero.mp (List.length_pos.mpr hne)
  field_simp

/-- Sample variance of a nonempty constant list is zero. -/
theorem sampleVar_const {l : List ℚ} {c : ℚ} (hne : l ≠ [])
    (h : ∀ x ∈ l, x = c) : sampleVar l = 0 := by
  unfold sampleVar
  have hm := listMean_const hne h
  have hz : ∀ x ∈ l.map (fun x => (x - listMean l) ^ 2), x = 0 := by
    intro x hx
    rcases List.mem_map.mp hx with ⟨y, hy, rfl⟩
    rw [h y hy, hm]
    ring
  rw [listSum_const hz]
  simp

/-- The mean of a nonempty list is bounded by any bound on its elements. -/
theorem listMean_le_of_forall_le {l : List ℚ} {t : ℚ} (hne : l ≠ [])
    (h : ∀ x ∈ l, x ≤ t) : listMean l ≤ t := by
  unfold listMean
  have hlen : (0 : ℚ) < l.length := by
    exact_mod_cast List.length_pos.mpr hne
  rw [div_le_iff hlen]
  have hs := List.sum_le_card_nsmul l t h
  calc l.sum ≤ l.length • t := hs
    _ = t * l.length := by rw [nsmul_eq_mul]; ring

/-- A linear interpolation between `base` and `base + span` stays in that
band. -/
theorem ramp_mem (x lo hi base span : ℚ) (hlo : lo < x) (hx : x ≤ hi)
    (hlh : lo < hi) (hb : 0 ≤ base) (hs : 0 ≤ span) :
    base ≤ base + (x - lo) / (hi - lo) * span ∧
      base + (x - lo) / (hi - lo) * span ≤ base + span := by
  have hpos : 0 < hi - lo := by linarith
  have ht0 : 0 ≤ (x - lo) / (hi - lo) := div_nonneg (by linarith) (le_of_lt hpos)
  have ht1 : (x - lo) / (hi - lo) ≤ 1 := (div_le_one hpos).mpr (by linarith)
  constructor
  · nlinarith
  · nlinarith

/-- Some element of a nonempty list lies at or below its
linear-interpolation quantile for a probability in `[0, 1]` (the sorted
minimum works). -/
theorem exists_le_quantileLinear (xs : List ℚ) (q : ℚ) (hne : xs ≠ [])
    (h0 : 0 ≤ q) (h1 : q ≤ 1) : ∃ x ∈ xs, x ≤ quantileLinear xs q := by
  have hperm : (xs.insertionSort (· ≤ ·)).Perm xs := List.perm_insertionSort _ xs
  have hsort : (xs.insertionSort (· ≤ ·)).Sorted (· ≤ ·) :=
    List.sorted_insertionSort _ xs
  have hsne : xs.insertionSort (· ≤ ·) ≠ [] := by
    intro h
    apply hne
    have hl := hperm.length_eq
    rw [h] at hl
    exact List.length_eq_zero.mp hl.symm
  obtain ⟨a, t, hst⟩ := List.exists_cons_of_ne_nil hsne
  have hhead : ∀ y ∈ xs.insertionSort (· ≤ ·), a ≤ y := by
    intro y hy
    rw [hst] at hy hsort
    rcases List.mem_cons.mp hy with h' | h'
    · rw [h']
    · exact (List.sorted_cons.mp hsort).1 y h'
  refine ⟨a, hperm.subset (by rw [hst]; exact List.mem_cons_self a t), ?_⟩
  simp only [quantileLinear]
  rw [if_neg (by simp [List.isEmpty_iff, hsne])]
  set s := xs.insertionSort (· ≤ ·) with hs
  set n := s.length with hn
  set h : ℚ := q * ((n : ℚ) - 1) with hh
  set i : ℕ := (⌊h⌋).toNat with hi
  have hnpos : 0 < n := by
    rw [hn, hst]
    simp
  have hn1 : (1 : ℚ) ≤ (n : ℚ) := by exact_mod_cast hnpos
  have hh0 : 0 ≤ h := by
    rw [hh]
    apply mul_nonneg h0
    linarith
  have hfloor0 : (0 : ℤ) ≤ ⌊h⌋ := Int.floor_nonneg.mpr hh0
  have hiz : (i : ℤ) = ⌊h⌋ := Int.toNat_of_nonneg hfloor0
  have hile : (i : ℚ) ≤ h := by
    have hfl := Int.floor_le h
    rw [← hiz] at hfl
    exact_mod_cast hfl
  have hhle : h ≤ (n : ℚ) - 1 := by
    rw [hh]
    nlinarith
  have hin : i < n := by
    have h1' : (⌊h⌋ : ℚ) ≤ (n : ℚ) - 1 := le_trans (Int.floor_le h) hhle
    have h2' : ⌊h⌋ ≤ (n : ℤ) - 1 := by exact_mod_cast h1'
    omega
  have himin : min (i + 1) (n - 1) < n := by omega
  have hile2 : i ≤ min (i + 1) (n - 1) := by omega
  have hlo : s.getD i 0 = s.get ⟨i, hin⟩ := by
    rw [List.getD_eq_getElem s 0 hin]
    simp
  have hhi : s.getD (min (i + 1) (n - 1)) 0 = s.get ⟨min (i + 1) (n - 1), himin⟩ := by
    rw [List.getD_eq_getElem s 0 himin]
    simp
  have hale : a ≤ s.get ⟨i, hin⟩ := hhead _ (List.get_mem s i hin)
  have hlohi : s.get ⟨i, hin⟩ ≤ s.get ⟨min (i + 1) (n - 1), himin⟩ :=
    hsort.rel_get_of_le (Fin.mk_le_mk.mpr hile2)
  rw [hlo, hhi]
  nlinarith [hale, hlohi, hile]

/-! ## Claim theorems -/

/-- C6: `calculate_var_by_monte_carlo` is deterministic: because the random
generator is re-seeded with the fixed seed 42 inside each call, two calls
with identical arguments return the same VaR regardless of the incoming
global random state. -/
theorem monte_carlo_var_deterministic (returns : List ℚ) (confidence : ℚ)
    (period_days simulations : ℕ) (s1 s2 : NpRandomState) :
    (calculate_var_by_monte_carlo returns confidence period_days simulations s1).1 =
      (calculate_var_by_monte_carlo returns confidence period_days simulations s2).1 := by
  unfold calculate_var_by_monte_carlo
  split_ifs <;> rfl

/-- C9: with any of the seven required keys missing, `calculate_global_risk_score`
returns the neutral default: score 50, rating "Indéterminé" (Indeterminate),
gray colour, and an empty component-score dict. -/
theorem risk_score_missing_key_neutral (m : RiskMetricsInput)
    (h : m.d_leverage = none ∨ m.trading_style = none ∨ m.var_monthly = none ∨
      m.max_drawdown = none ∨ m.margin_pct = none ∨ m.concentration = none ∨
      m.volatility = none) :
    calculate_global_risk_score m = ⟨50, none, "Indéterminé", "gray"⟩ := by
  unfold calculate_global_risk_score
  rcases h with h | h | h | h | h | h | h <;> simp [h]

/-- Witness for C9 at the all-missing input. -/
theorem risk_score_missing_key_neutral_witness :
    calculate_global_risk_score ⟨none, none, none, none, none, none, none⟩ =
      ⟨50, none, "Indéterminé", "gray"⟩ :=
  risk_score_missing_key_neutral ⟨none, none, none, none, none, none, none⟩
    (Or.inl rfl)

/-- C2 counterexample: on the constant two-element return series
`[0.01, 0.01]` the excess returns have zero standard deviation, and
`calculate_sharpe_ratio` does not return 0 — the float division by a zero
standard deviation produces a non-finite value (modelled `none`), refuting
"returns 0 for every non-empty return series whose excess returns have zero
standard deviation". -/
theorem sharpe_zero_std_counterexample :
    calculate_sharpe_ratio [1 / 100, 1 / 100] (3 / 100) 252 ≠ some 0 ∧
      calculate_sharpe_ratio [1 / 100, 1 / 100] (3 / 100) 252 = none := by
  have h : calculate_sharpe_ratio [1 / 100, 1 / 100] (3 / 100) 252 = none := by
    norm_num [calculate_sharpe_ratio, sampleStd, sampleVar, listMean,
      periodicRate, floatSqrt]
  exact ⟨by rw [h]; exact fun hc => Option.noConfusion hc, h⟩

/-- C2 amended: `calculate_sharpe_ratio` returns 0 on the empty series, and
on every non-empty all-equal return series (zero standard deviation of the
excess returns) it returns a non-finite float (NaN/±inf, modelled `none`)
rather than 0 — no exception propagates in either case. -/
theorem sharpe_empty_and_zero_std (rate : ℚ) (periods : ℕ) (returns : List ℚ)
    (hne : returns ≠ []) (hconst : ∀ x ∈ returns, ∀ y ∈ returns, x = y) :
    calculate_sharpe_ratio [] rate periods = some 0 ∧
      calculate_sharpe_ratio returns rate periods = none := by
  constructor
  · simp [calculate_sharpe_ratio]
  · match returns, hne with
    | a :: t, _ =>
      cases t with
      | nil => simp [calculate_sharpe_ratio]
      | cons b t' =>
        have hlen0 : (a :: b :: t').length ≠ 0 := by simp
        have hlen1 : (a :: b :: t').length ≠ 1 := by simp
        have hc : ∀ x ∈ (a :: b :: t').map (· - periodicRate rate periods),
            x = a - periodicRate rate periods := by
          intro x hx
          rcases List.mem_map.mp hx with ⟨y, hy, rfl⟩
          rw [hconst y hy a (List.mem_cons_self a _)]
        have hvar : sampleVar ((a :: b :: t').map (· - periodicRate rate periods)) = 0 :=
          sampleVar_const (by simp) hc
        have hsd : sampleStd ((a :: b :: t').map (· - periodicRate rate periods)) = 0 := by
          rw [sampleStd, hvar, floatSqrt_zero]
        simp only [calculate_sharpe_ratio]
        rw [if_neg hlen0, if_neg hlen1, if_pos hsd]

/-- Witness for C2 (amended) at the constant series `[0.02, 0.02, 0.02]`. -/
theorem sharpe_empty_and_zero_std_witness :
    calculate_sharpe_ratio [] (3 / 100) 252 = some 0 ∧
      calculate_sharpe_ratio [2 / 100, 2 / 100, 2 / 100] (3 / 100) 252 = none :=
  sharpe_empty_and_zero_std (3 / 100) 252 [2 / 100, 2 / 100, 2 / 100]
    (by simp) (by intro x hx y hy; simp at hx hy; rw [hx, hy])

/-- The equity series of the spec's drawdown-segmentation example. -/
def specExampleSeries : List (ℤ × ℚ) :=
  [(0, 100), (1, 95), (2, 90), (3, 95), (4, 101)]

/-- C1 counterexample: on `[100,95,90,95,101]` with threshold −5 the single
episode emitted by `identify_drawdowns` has `start_date = 2` — the first
index whose drawdown (−10%) lies strictly below the threshold, not the peak
index 0 (index 1 sits exactly at −5%, and the comparison is strict) — and
`drawdown_amount_pct = 0` (equity at the recorded start equals the trough
equity), not −10. -/
theorem identify_drawdowns_example_counterexample :
    (identify_drawdowns specExampleSeries (-5)).map
        (fun e => (e.start_date, e.drawdown_amount_pct)) = [(2, 0)] ∧
      ((2 : ℤ), (0 : ℚ)) ≠ ((0 : ℤ), (-10 : ℚ)) := by
  constructor
  · norm_num [identify_drawdowns, specExampleSeries, ddSeries, ddGo, idStep,
      closeEpisode, List.insertionSort, List.orderedInsert]
  · intro hc
    rw [Prod.mk.injEq] at hc
    exact absurd hc.1 (by norm_num)

/-- C1 amended: on `[100,95,90,95,101]` with threshold −5,
`identify_drawdowns` emits exactly one completed episode, whose start is
index 2 (the first index with drawdown strictly below the threshold), whose
trough (`bottom_date`) is index 2 with `max_drawdown_pct = -10`, whose
recovery (`end_date`) is index 4 (the first index with drawdown ≥ 0), and
whose `drawdown_amount_pct` is 0 (measured from the recorded start, not from
the peak). -/
theorem identify_drawdowns_example :
    identify_drawdowns specExampleSeries (-5) =
      [{ start_date := 2, bottom_date := 2, end_date := some 4,
         max_drawdown_pct := -10, drawdown_amount_pct := 0,
         recovery_amount_pct := 110 / 9, drawdown_duration_days := 0,
         recovery_duration_days := 2, total_duration_days := 2,
         pain_index := 4 / 73, recovery_ratio := 0, active := false }] := by
  norm_num [identify_drawdowns, specExampleSeries, ddSeries, ddGo, idStep,
    closeEpisode, List.insertionSort, List.orderedInsert]

/-- C7: parametric VaR is monotone in the confidence level: on every return
series of length ≥ 2 and every period, the 99% VaR is at least the 95% VaR
(the z-score at the 1% tail is smaller than at the 5% tail and the standard
deviation and period scaling are nonnegative). -/
theorem parametric_var_monotone (returns : List ℚ) (period_days : ℕ)
    (h : 2 ≤ returns.length) :
    calculate_value_at_risk returns (95 / 100) period_days ≤
      calculate_value_at_risk returns (99 / 100) period_days := by
  have hnot : ¬(returns.length < 2) := by omega
  unfold calculate_value_at_risk
  rw [if_neg hnot, if_neg hnot]
  have h95 : (1 : ℚ) - 95 / 100 = 1 / 20 := by norm_num
  have h99 : (1 : ℚ) - 99 / 100 = 1 / 100 := by norm_num
  rw [h95, h99]
  have hz95 : normPpf (1 / 20) = -1645 / 1000 := by norm_num [normPpf]
  have hz99 : normPpf (1 / 100) = -2326 / 1000 := by norm_num [normPpf]
  rw [hz95, hz99]
  have hsd : 0 ≤ sampleStd returns := floatSqrt_nonneg _
  have hk : 0 ≤ floatSqrt (period_days : ℚ) := floatSqrt_nonneg _
  nlinarith [mul_nonneg hsd hk]

/-- Witness for C7 at `[0.01, 0.02]`, period 1. -/
theorem parametric_var_monotone_witness :
    calculate_value_at_risk [1 / 100, 2 / 100] (95 / 100) 1 ≤
      calculate_value_at_risk [1 / 100, 2 / 100] (99 / 100) 1 :=
  parametric_var_monotone [1 / 100, 2 / 100] 1 (by decide)

/-- C5 counterexample: on the all-positive return series `[0.01, 0.02]` at
95% confidence and period 1, the magnitude of the Expected Shortfall (1) is
strictly below the magnitude of the historical VaR (1.05): both values are
negative there and the magnitude comparison reverses. -/
theorem es_magnitude_counterexample :
    |calculate_expected_shortfall [1 / 100, 2 / 100] (95 / 100) 1| <
      |calculate_var_by_historical [1 / 100, 2 / 100] (95 / 100) 1| := by
  have hq : quantileLinear [1 / 100, 1 / 50] (1 / 20) = 21 / 2000 := by
    norm_num [quantileLinear, List.insertionSort, List.orderedInsert]
  have hes : calculate_expected_shortfall [1 / 100, 2 / 100] (95 / 100) 1 = -1 := by
    simp only [calculate_expected_shortfall]
    norm_num [hq, List.filter, listMean, floatSqrt_one]
  have hvar : calculate_var_by_historical [1 / 100, 2 / 100] (95 / 100) 1 = -(21 / 20) := by
    simp only [calculate_var_by_historical]
    norm_num [hq, floatSqrt_one]
  rw [hes, hvar, abs_of_nonpos (by norm_num : (-1 : ℚ) ≤ 0),
    abs_of_nonpos (by norm_num : (-(21 / 20) : ℚ) ≤ 0)]
  norm_num

/-- C5 amended: as signed values (not magnitudes), the Expected Shortfall is
always at least the historical VaR on the same series, confidence level in
`[0, 1]`, and period: the tail mean lies at or below the quantile, and both
are negated by the same nonnegative scaling. -/
theorem es_ge_historical_var (returns : List ℚ) (confidence : ℚ)
    (period_days : ℕ) (hlen : 2 ≤ returns.length) (hc0 : 0 ≤ confidence)
    (hc1 : confidence ≤ 1) :
    calculate_var_by_historical returns confidence period_days ≤
      calculate_expected_shortfall returns confidence period_days := by
  have hnot : ¬(returns.length < 2) := by omega
  have hne : returns ≠ [] := by
    intro h
    rw [h] at hlen
    simp at hlen
  have hguard : ¬((1 - confidence) < 0 ∨ 1 < (1 - confidence)) := by
    push_neg
    constructor <;> linarith
  unfold calculate_var_by_historical calculate_expected_shortfall
  rw [if_neg hnot, if_neg hnot, if_neg hguard, if_neg hguard]
  obtain ⟨x, hx, hxle⟩ :=
    exists_le_quantileLinear returns (1 - confidence) hne (by linarith) (by linarith)
  have hxf : x ∈ returns.filter (· ≤ quantileLinear returns (1 - confidence)) :=
    List.mem_filter.mpr ⟨hx, by simpa using hxle⟩
  have htail : returns.filter (· ≤ quantileLinear returns (1 - confidence)) ≠ [] := by
    intro hemp
    rw [hemp] at hxf
    simp at hxf
  rw [if_neg (by simpa [List.isEmpty_iff] using htail)]
  have hmean :
      listMean (returns.filter (· ≤ quantileLinear returns (1 - confidence))) ≤
        quantileLinear returns (1 - confidence) := by
    apply listMean_le_of_forall_le htail
    intro y hy
    simpa using (List.mem_filter.mp hy).2
  have hk : 0 ≤ floatSqrt (period_days : ℚ) := floatSqrt_nonneg _
  nlinarith [mul_nonneg (sub_nonneg.mpr hmean) hk]

/-- Witness for C5 (amended) at `[0.01, 0.02]`, 95%, period 1. -/
theorem es_ge_historical_var_witness :
    calculate_var_by_historical [1 / 100, 2 / 100] (95 / 100) 1 ≤
      calculate_expected_shortfall [1 / 100, 2 / 100] (95 / 100) 1 :=
  es_ge_historical_var [1 / 100, 2 / 100] (95 / 100) 1 (by decide) (by norm_num)
    (by norm_num)

/-! ## Bounds of the risk-score components -/

/-- The D-Leverage component is zero for nonpositive leverage. -/
theorem dLeverageScoreCore_of_nonpos (tOpt tMax d : ℚ) (hd : d ≤ 0) :
    dLeverageScoreCore tOpt tMax d = 0 := by
  simp only [dLeverageScoreCore]
  rw [if_pos hd]

/-- The D-Leverage component exceeds 20 for any positive leverage, given
well-ordered thresholds. -/
theorem dLeverageScoreCore_gt_20 (tOpt tMax d : ℚ) (h1 : 0 < tOpt)
    (h2 : tOpt < tMax) (hd : 0 < d) : 20 < dLeverageScoreCore tOpt tMax d := by
  simp only [dLeverageScoreCore]
  split_ifs with hb1 hb2 hb3 hb4
  · linarith
  · have ht : 0 < d / tOpt := div_pos hd h1
    nlinarith
  · have ht : 0 ≤ (d - tOpt) / (tMax - tOpt) :=
      div_nonneg (by linarith [not_le.mp hb2]) (by linarith)
    nlinarith
  · have ht : 0 ≤ (d - tMax) / (tMax * (3 / 2) - tMax) :=
      div_nonneg (by linarith [not_le.mp hb3]) (by nlinarith)
    nlinarith
  · norm_num

/-- The D-Leverage component stays in `[0, 100]` for well-ordered
thresholds. -/
theorem dLeverageScoreCore_bounds (tOpt tMax d : ℚ) (h1 : 0 < tOpt)
    (h2 : tOpt < tMax) :
    0 ≤ dLeverageScoreCore tOpt tMax d ∧ dLeverageScoreCore tOpt tMax d ≤ 100 := by
  simp only [dLeverageScoreCore]
  split_ifs with hb1 hb2 hb3 hb4
  · norm_num
  · have ht0 : 0 ≤ d / tOpt := div_nonneg (by linarith [not_le.mp hb1]) (le_of_lt h1)
    have ht1 : d / tOpt ≤ 1 := (div_le_one h1).mpr hb2
    constructor <;> nlinarith
  · have hr := ramp_mem d tOpt tMax 50 20 (not_le.mp hb2) hb3 h2 (by norm_num)
      (by norm_num)
    constructor <;> linarith [hr.1, hr.2]
  · have hr := ramp_mem d tMax (tMax * (3 / 2)) 70 30 (not_le.mp hb3) hb4
      (by nlinarith) (by norm_num) (by norm_num)
    constructor <;> linarith [hr.1, hr.2]
  · norm_num

/-- The per-style D-Leverage component is zero for nonpositive leverage. -/
theorem dLeverageScore_of_nonpos (style : String) (d : ℚ) (hd : d ≤ 0) :
    dLeverageScore style d = 0 := by
  unfold dLeverageScore
  split_ifs <;> exact dLeverageScoreCore_of_nonpos _ _ _ hd

/-- The per-style D-Leverage component exceeds 20 for any positive
leverage. -/
theorem dLeverageScore_gt_20 (style : String) (d : ℚ) (hd : 0 < d) :
    20 < dLeverageScore style d := by
  unfold dLeverageScore
  split_ifs
  · exact dLeverageScoreCore_gt_20 _ _ _ (by norm_num)
      (by norm_num [scalpingOptimalMax]) hd
  · exact dLeverageScoreCore_gt_20 _ _ _ (by norm_num)
      (by norm_num [intradayOptimalMax]) hd
  · exact dLeverageScoreCore_gt_20 _ _ _ (by norm_num)
      (by norm_num [swingOptimalMax]) hd

/-- The per-style D-Leverage component stays in `[0, 100]`. -/
theorem dLeverageScore_bounds (style : String) (d : ℚ) :
    0 ≤ dLeverageScore style d ∧ dLeverageScore style d ≤ 100 := by
  unfold dLeverageScore
  split_ifs
  · exact dLeverageScoreCore_bounds _ _ _ (by norm_num)
      (by norm_num [scalpingOptimalMax])
  · exact dLeverageScoreCore_bounds _ _ _ (by norm_num)
      (by norm_num [intradayOptimalMax])
  · exact dLeverageScoreCore_bounds _ _ _ (by norm_num)
      (by norm_num [swingOptimalMax])

/-- The monthly-VaR component stays in `[0, 100]` for nonnegative VaR. -/
theorem varScore_bounds {v : ℚ} (hv : 0 ≤ v) :
    0 ≤ varScore v ∧ varScore v ≤ 100 := by
  unfold varScore
  split_ifs with h1 h2 h3 h4
  · have ht0 : 0 ≤ v / 5 := by positivity
    have ht1 : v / 5 ≤ 1 := (div_le_one (by norm_num)).mpr h1
    constructor <;> nlinarith
  · have hr := ramp_mem v 5 10 30 30 (not_le.mp h1) h2 (by norm_num) (by norm_num)
      (by norm_num)
    constructor <;> linarith [hr.1, hr.2]
  · have hr := ramp_mem v 10 15 60 20 (not_le.mp h2) h3 (by norm_num) (by norm_num)
      (by norm_num)
    constructor <;> linarith [hr.1, hr.2]
  · have hr := ramp_mem v 15 25 80 20 (not_le.mp h3) h4 (by norm_num) (by norm_num)
      (by norm_num)
    constructor <;> linarith [hr.1, hr.2]
  · norm_num

/-- The drawdown component stays in `[0, 100]` unconditionally (the source
takes the absolute value first). -/
theorem drawdownScore_bounds (x : ℚ) :
    0 ≤ drawdownScore x ∧ drawdownScore x ≤ 100 := by
  simp only [drawdownScore]
  have habs : 0 ≤ |x| := abs_nonneg x
  split_ifs with h1 h2 h3 h4
  · have ht0 : 0 ≤ |x| / 5 := by positivity
    have ht1 : |x| / 5 ≤ 1 := (div_le_one (by norm_num)).mpr h1
    constructor <;> nlinarith
  · have hr := ramp_mem |x| 5 15 20 40 (not_le.mp h1) h2 (by norm_num) (by norm_num)
      (by norm_num)
    constructor <;> linarith [hr.1, hr.2]
  · have hr := ramp_mem |x| 15 25 60 20 (not_le.mp h2) h3 (by norm_num) (by norm_num)
      (by norm_num)
    constructor <;> linarith [hr.1, hr.2]
  · have hr := ramp_mem |x| 25 40 80 20 (not_le.mp h3) h4 (by norm_num) (by norm_num)
      (by norm_num)
    constructor <;> linarith [hr.1, hr.2]
  · norm_num

/-- The margin component stays in `[0, 100]` for nonnegative margin. -/
theorem marginScore_bounds {m : ℚ} (hm : 0 ≤ m) :
    0 ≤ marginScore m ∧ marginScore m ≤ 100 := by
  unfold marginScore
  split_ifs with h1 h2 h3 h4
  · have ht0 : 0 ≤ m / 20 := by positivity
    have ht1 : m / 20 ≤ 1 := (div_le_one (by norm_num)).mpr h1
    constructor <;> nlinarith
  · have hr := ramp_mem m 20 40 20 30 (not_le.mp h1) h2 (by norm_num) (by norm_num)
      (by norm_num)
    constructor <;> linarith [hr.1, hr.2]
  · have hr := ramp_mem m 40 70 50 30 (not_le.mp h2) h3 (by norm_num) (by norm_num)
      (by norm_num)
    constructor <;> linarith [hr.1, hr.2]
  · have hr := ramp_mem m 70 90 80 20 (not_le.mp h3) h4 (by norm_num) (by norm_num)
      (by norm_num)
    constructor <;> linarith [hr.1, hr.2]
  · norm_num

/-- The concentration component stays in `[0, 100]` for a normalized HHI. -/
theorem concentrationScore_bounds {c : ℚ} (h0 : 0 ≤ c) (h1 : c ≤ 1) :
    0 ≤ concentrationScore c ∧ concentrationScore c ≤ 100 := by
  unfold concentrationScore
  constructor <;> nlinarith

/-- The volatility component stays in `[0, 100]` for nonnegative
volatility. -/
theorem volatilityScore_bounds {v : ℚ} (hv : 0 ≤ v) :
    0 ≤ volatilityScore v ∧ volatilityScore v ≤ 100 := by
  unfold volatilityScore
  split_ifs with h1 h2 h3 h4
  · have ht0 : 0 ≤ v / 10 := by positivity
    have ht1 : v / 10 ≤ 1 := (div_le_one (by norm_num)).mpr h1
    constructor <;> nlinarith
  · have hr := ramp_mem v 10 20 25 25 (not_le.mp h1) h2 (by norm_num) (by norm_num)
      (by norm_num)
    constructor <;> linarith [hr.1, hr.2]
  · have hr := ramp_mem v 20 30 50 25 (not_le.mp h2) h3 (by norm_num) (by norm_num)
      (by norm_num)
    constructor <;> linarith [hr.1, hr.2]
  · have hr := ramp_mem v 30 50 75 25 (not_le.mp h3) h4 (by norm_num) (by norm_num)
      (by norm_num)
    constructor <;> linarith [hr.1, hr.2]
  · norm_num

/-- The metrics map of the C4 counterexample: all seven keys present but a
negative monthly VaR. -/
def negativeVarMetrics : RiskMetricsInput :=
  ⟨some 0, some "swing", some (-100), some 0, some 0, some 0, some 0⟩

/-- C4 counterexample: with all seven required keys present but
`var_monthly = -100`, `calculate_global_risk_score` returns the composite
score −120, outside `[0, 100]` — the VaR ramp `(v/5)·30` is applied to the
negative value unguarded. -/
theorem risk_score_out_of_range_counterexample :
    (calculate_global_risk_score negativeVarMetrics).score = -120 ∧
      (calculate_global_risk_score negativeVarMetrics).score < 0 := by
  have h : (calculate_global_risk_score negativeVarMetrics).score = -120 := by
    norm_num [calculate_global_risk_score, negativeVarMetrics, dLeverageScore,
      dLeverageScoreCore, swingOptimalMax, varScore, drawdownScore, marginScore,
      concentrationScore, volatilityScore, pythonRound]
  exact ⟨h, by rw [h]; norm_num⟩

/-- C4 amended: with all seven required keys present and the raw metrics in
their natural domains (nonnegative monthly VaR, margin percentage and
volatility; concentration in `[0, 1]`; any leverage, style and drawdown),
the composite score is an integer in `[0, 100]` and the rating and colour
are the band functions of the score. -/
theorem risk_score_in_range (d : ℚ) (style : String) (v dd mp cc vol : ℚ)
    (hv : 0 ≤ v) (hmp : 0 ≤ mp) (hcc0 : 0 ≤ cc) (hcc1 : cc ≤ 1)
    (hvol : 0 ≤ vol) :
    0 ≤ (calculate_global_risk_score
        ⟨some d, some style, some v, some dd, some mp, some cc, some vol⟩).score ∧
      (calculate_global_risk_score
        ⟨some d, some style, some v, some dd, some mp, some cc, some vol⟩).score ≤ 100 ∧
      (calculate_global_risk_score
          ⟨some d, some style, some v, some dd, some mp, some cc, some vol⟩).rating =
        ratingOfScore (calculate_global_risk_score
          ⟨some d, some style, some v, some dd, some mp, some cc, some vol⟩).score ∧
      (calculate_global_risk_score
          ⟨some d, some style, some v, some dd, some mp, some cc, some vol⟩).color =
        colorOfScore (calculate_global_risk_score
          ⟨some d, some style, some v, some dd, some mp, some cc, some vol⟩).score := by
  have h1 := dLeverageScore_bounds style d
  have h2 := varScore_bounds hv
  have h3 := drawdownScore_bounds dd
  have h4 := marginScore_bounds hmp
  have h5 := concentrationScore_bounds hcc0 hcc1
  have h6 := volatilityScore_bounds hvol
  simp only [calculate_global_risk_score, Option.isNone_some, Bool.or_self,
    Bool.or_false, Bool.false_or, Option.getD_some, ite_false, Bool.false_eq_true,
    if_false]
  refine ⟨?_, ?_, by trivial, by trivial⟩
  · exact pythonRound_nonneg (by nlinarith [h1.1, h2.1, h3.1, h4.1, h5.1, h6.1])
  · exact pythonRound_le (by push_cast; nlinarith [h1.2, h2.2, h3.2, h4.2, h5.2, h6.2])

/-- Witness for C4 (amended) at a fully-populated metrics map. -/
theorem risk_score_in_range_witness :
    0 ≤ (calculate_global_risk_score
        ⟨some 1, some "swing", some 2, some 3, some 4, some (1 / 2), some 5⟩).score ∧
      (calculate_global_risk_score
        ⟨some 1, some "swing", some 2, some 3, some 4, some (1 / 2), some 5⟩).score ≤ 100 ∧
      (calculate_global_risk_score
          ⟨some 1, some "swing", some 2, some 3, some 4, some (1 / 2), some 5⟩).rating =
        ratingOfScore (calculate_global_risk_score
          ⟨some 1, some "swing", some 2, some 3, some 4, some (1 / 2), some 5⟩).score ∧
      (calculate_global_risk_score
          ⟨some 1, some "swing", some 2, some 3, some 4, some (1 / 2), some 5⟩).color =
        colorOfScore (calculate_global_risk_score
          ⟨some 1, some "swing", some 2, some 3, some 4, some (1 / 2), some 5⟩).score :=
  risk_score_in_range 1 "swing" 2 3 4 (1 / 2) 5 (by norm_num) (by norm_num)
    (by norm_num) (by norm_num) (by norm_num)

/-- C10: in `calculate_global_risk_score`, the D-Leverage component score is
discontinuous at zero: it is exactly 0 whenever `d_leverage ≤ 0`, and for
every strictly positive `d_leverage` — under every trading style — it is
strictly greater than 20. -/
theorem dleverage_component_discontinuous (style : String)
    (d v dd mp cc vol : ℚ) :
    ∃ cs : ComponentScores,
      (calculate_global_risk_score
          ⟨some d, some style, some v, some dd, some mp, some cc, some vol⟩).details =
        some cs ∧
        (d ≤ 0 → cs.d_leverage = 0) ∧ (0 < d → 20 < cs.d_leverage) := by
  refine ⟨⟨dLeverageScore style d, varScore v, drawdownScore dd, marginScore mp,
    concentrationScore cc, volatilityScore vol⟩, ?_, ?_, ?_⟩
  · simp [calculate_global_risk_score]
  · intro h
    exact dLeverageScore_of_nonpos style d h
  · intro h
    exact dLeverageScore_gt_20 style d h

/-- Witness for C10 at `d_leverage = 1` (component above 20) and
`d_leverage = -1` (component 0). -/
theorem dleverage_component_discontinuous_witness :
    (∃ cs : ComponentScores,
      (calculate_global_risk_score
          ⟨some 1, some "swing", some 0, some 0, some 0, some 0, some 0⟩).details =
        some cs ∧ 20 < cs.d_leverage) ∧
    (∃ cs : ComponentScores,
      (calculate_global_risk_score
          ⟨some (-1), some "swing", some 0, some 0, some 0, some 0, some 0⟩).details =
        some cs ∧ cs.d_leverage = 0) := by
  constructor
  · obtain ⟨cs, hdet, _, hpos⟩ := dleverage_component_discontinuous "swing" 1 0 0 0 0 0
    exact ⟨cs, hdet, hpos (by norm_num)⟩
  · obtain ⟨cs, hdet, hzero, _⟩ :=
      dleverage_component_discontinuous "swing" (-1) 0 0 0 0 0
    exact ⟨cs, hdet, hzero (by norm_num)⟩

/-- A Python `l[-n:]` slice never exceeds `n` elements. -/
theorem lastSlice_length_le (n : ℕ) (l : List α) :
    (lastSlice n l).length ≤ n := by
  simp only [lastSlice, List.length_drop]
  omega

/-- The snapshot of the C8 scenario: connected, margin 60%, every other
threshold unbreached. -/
def breachedMarginInput : AlertsInput :=
  ⟨true, true, "2025-01-01 00:00:00", 60, 0, 0, some [], 1000, []⟩

/-- The margin alert produced in the C8 scenario. -/
def marginAlert60 : TradingAlert :=
  ⟨"2025-01-01 00:00:00", "RISQUE", "Niveau de marge élevé", "60.0%"⟩

/-- C8: with margin 60% against the configured threshold 50% and every other
threshold unbreached, `check_alerts` returns exactly one alert — of category
"RISQUE" with value "60.0%" — and exactly one optimization suggestion; a
second call on the unchanged breaching state appends an identical duplicate
alert to the stored history; and after any call on a state within the caps,
the stored history holds at most the last 50 alerts and 20 optimizations. -/
theorem check_alerts_margin_scenario :
    (check_alerts defaultAlertThresholds breachedMarginInput ⟨[], []⟩).1.1 =
        [marginAlert60] ∧
      (check_alerts defaultAlertThresholds breachedMarginInput ⟨[], []⟩).1.2.length = 1 ∧
      (check_alerts defaultAlertThresholds breachedMarginInput
          (check_alerts defaultAlertThresholds breachedMarginInput ⟨[], []⟩).2).2.alerts =
        [marginAlert60, marginAlert60] ∧
      ∀ (thr : AlertThresholds) (inp : AlertsInput) (st : AlertsState),
        st.alerts.length ≤ 50 → st.optimizations.length ≤ 20 →
          (check_alerts thr inp st).2.alerts.length ≤ 50 ∧
            (check_alerts thr inp st).2.optimizations.length ≤ 20 := by
  refine ⟨?_, ?_, ?_, ?_⟩
  · norm_num [check_alerts, defaultAlertThresholds, breachedMarginInput,
      marginAlert60, calculate_daily_pnl, fmtFixed, pythonRound, natPad]
    rfl
  · norm_num [check_alerts, defaultAlertThresholds, breachedMarginInput,
      calculate_daily_pnl]
  · norm_num [check_alerts, defaultAlertThresholds, breachedMarginInput,
      marginAlert60, calculate_daily_pnl, fmtFixed, pythonRound, natPad, lastSlice]
    rfl
  · intro thr inp st h1 h2
    simp only [check_alerts]
    split_ifs
    all_goals
      first
      | exact ⟨h1, h2⟩
      | exact ⟨lastSlice_length_le 50 _, lastSlice_length_le 20 _⟩

/-- Witness for C8: the cap conjunct applied at the concrete scenario. -/
theorem check_alerts_margin_scenario_witness :
    (check_alerts defaultAlertThresholds breachedMarginInput ⟨[], []⟩).2.alerts.length ≤ 50 ∧
      (check_alerts defaultAlertThresholds breachedMarginInput ⟨[], []⟩).2.optimizations.length ≤ 20 :=
  check_alerts_margin_scenario.2.2.2 defaultAlertThresholds breachedMarginInput
    ⟨[], []⟩ (by simp) (by simp)

/-! ## C3: equivalence of the two episode segmentations

Both loops are folds over the same drawdown series; the comparison projects
each episode to (start index, end index, most-negative drawdown), reading a
still-active episode's `none` end as the series' last index (which is what
`analyze_drawdown_profile` stores there). -/

/-- Comparison projection of an `identify_drawdowns` episode: start, end
(`none` read as the last index `last`), most-negative drawdown. -/
def idProj (last : ℤ) (e : DDEpisode) : ℤ × ℤ × ℚ :=
  (e.start_date, e.end_date.getD last, e.max_drawdown_pct)

/-- Comparison projection of an `analyze_drawdown_profile` episode. -/
def profProj (e : ProfEpisode) : ℤ × ℤ × ℚ :=
  (e.start, e.end_date, e.max_drawdown)

/-- Simulation relation between the loop states of the two segmentations:
same in-drawdown flag, same start index and running trough while in a
drawdown, and equal projected episode lists. -/
def SimRel (last : ℤ) (s : IdSt) (t : PrSt) : Prop :=
  s.inDD = t.inDD ∧
    (s.inDD = true → s.startIdx = t.startIdx ∧ s.curDd = t.curDd) ∧
    s.eps.map (idProj last) = t.eps.map profProj

/-- One loop iteration preserves the simulation relation. -/
theorem simRel_step (thr : ℚ) (last : ℤ) (s : IdSt) (t : PrSt) (d : ℤ)
    (e v : ℚ) (h : SimRel last s t) :
    SimRel last (idStep thr s (d, e, v)) (profStep thr t (d, v)) := by
  obtain ⟨sIn, sStart, sVal, sDd, sIdx, sBot, sEps⟩ := s
  obtain ⟨tIn, tStart, tDd, tEps⟩ := t
  obtain ⟨hdd, hinfo, heps⟩ := h
  have hdd' : sIn = tIn := hdd
  subst hdd'
  have heps' : sEps.map (idProj last) = tEps.map profProj := heps
  cases sIn with
  | false =>
    show SimRel last
      (if v < thr then ⟨true, d, e, v, d, e, sEps⟩ else ⟨false, sStart, sVal, sDd, sIdx, sBot, sEps⟩)
      (if v < thr then ⟨true, d, v, tEps⟩ else ⟨false, tStart, tDd, tEps⟩)
    by_cases hv : v < thr
    · rw [if_pos hv, if_pos hv]
      exact ⟨rfl, fun _ => ⟨rfl, rfl⟩, heps'⟩
    · rw [if_neg hv, if_neg hv]
      exact ⟨rfl, hinfo, heps'⟩
  | true =>
    obtain ⟨hstart, hcur⟩ := hinfo rfl
    have hstart' : sStart = tStart := hstart
    have hcur' : sDd = tDd := hcur
    subst hstart' hcur'
    show SimRel last
      (if v < sDd then ⟨true, sStart, sVal, v, d, e, sEps⟩
        else if 0 ≤ v then
          ⟨false, 0, 0, 0, 0, 0,
            sEps ++ [closeEpisode ⟨true, sStart, sVal, sDd, sIdx, sBot, sEps⟩ d e]⟩
        else ⟨true, sStart, sVal, sDd, sIdx, sBot, sEps⟩)
      (if v < sDd then ⟨true, sStart, v, tEps⟩
        else if 0 ≤ v then
          ⟨false, 0, 0, tEps ++ [⟨sStart, d, sDd, d - sStart, none⟩]⟩
        else ⟨true, sStart, sDd, tEps⟩)
    by_cases hv1 : v < sDd
    · rw [if_pos hv1, if_pos hv1]
      exact ⟨rfl, fun _ => ⟨rfl, rfl⟩, heps'⟩
    · rw [if_neg hv1, if_neg hv1]
      by_cases hv2 : (0 : ℚ) ≤ v
      · rw [if_pos hv2, if_pos hv2]
        refine ⟨rfl, fun hc => absurd hc (by simp), ?_⟩
        simp only [List.map_append, heps', List.map_cons, List.map_nil]
        rfl
      · rw [if_neg hv2, if_neg hv2]
        exact ⟨rfl, hinfo, heps'⟩

/-- The whole fold preserves the simulation relation. -/
theorem simRel_foldl (thr : ℚ) (last : ℤ) :
    ∀ (l : List (ℤ × ℚ × ℚ)) (s : IdSt) (t : PrSt), SimRel last s t →
      SimRel last (l.foldl (idStep thr) s)
        (l.foldl (fun acc x => profStep thr acc (x.1, x.2.2)) t) := by
  intro l
  induction l with
  | nil => intro s t h; exact h
  | cons x rest ih =>
    intro s t h
    obtain ⟨d, e, v⟩ := x
    exact ih _ _ (simRel_step thr last s t d e v h)

/-- `calculate_drawdown`'s running pass is the drawdown projection of the
zipped pass. -/
theorem cdGo_eq_map (m : ℚ) (l : List (ℤ × ℚ)) :
    cdGo m l = (ddGo m l).map (fun x => (x.1, x.2.2)) := by
  induction l generalizing m with
  | nil => rfl
  | cons p rest ih =>
    obtain ⟨d, e⟩ := p
    simp only [cdGo, ddGo, List.map_cons, ih]

/-- `calculate_drawdown` is the drawdown projection of `ddSeries`. -/
theorem calculate_drawdown_eq_map (l : List (ℤ × ℚ)) :
    calculate_drawdown l = (ddSeries l).map (fun x => (x.1, x.2.2)) := by
  cases l with
  | nil => rfl
  | cons p rest =>
    obtain ⟨d, e⟩ := p
    simp only [calculate_drawdown, ddSeries, cdGo_eq_map]

/-- The zipped drawdown pass preserves length. -/
theorem ddGo_length (m : ℚ) (l : List (ℤ × ℚ)) : (ddGo m l).length = l.length := by
  induction l generalizing m with
  | nil => rfl
  | cons p rest ih =>
    obtain ⟨d, e⟩ := p
    simp only [ddGo, List.length_cons, ih]

/-- `ddSeries` preserves length. -/
theorem ddSeries_length (l : List (ℤ × ℚ)) : (ddSeries l).length = l.length := by
  cases l with
  | nil => rfl
  | cons p rest =>
    obtain ⟨d, e⟩ := p
    simp only [ddSeries, ddGo_length]

/-- One step of the zipped drawdown pass on a cons cell. -/
theorem ddGo_cons (m : ℚ) (d : ℤ) (e : ℚ) (rest : List (ℤ × ℚ)) :
    ddGo m ((d, e) :: rest) =
      (d, e, (e - max m e) / max m e * 100) :: ddGo (max m e) rest := rfl

/-- The zipped drawdown pass preserves the final (date, equity) pair. -/
theorem ddGo_getLast (m : ℚ) (l : List (ℤ × ℚ)) :
    ((ddGo m l).getLast?).map (fun x => (x.1, x.2.1)) = l.getLast? := by
  induction l generalizing m with
  | nil => rfl
  | cons p rest ih =>
    obtain ⟨d, e⟩ := p
    cases rest with
    | nil => rfl
    | cons r rest' =>
      obtain ⟨rd, re⟩ := r
      rw [ddGo_cons, ddGo_cons, List.getLast?_cons_cons, ← ddGo_cons, ih,
        List.getLast?_cons_cons]

/-- `ddSeries` preserves the final (date, equity) pair. -/
theorem ddSeries_getLast (l : List (ℤ × ℚ)) :
    ((ddSeries l).getLast?).map (fun x => (x.1, x.2.1)) = l.getLast? := by
  cases l with
  | nil => rfl
  | cons p rest =>
    obtain ⟨d, e⟩ := p
    simp only [ddSeries, ddGo_getLast]

/-- A five-point equity series with one sub-threshold drawdown, used to
separate the two segmentations' insufficient-data cutoffs. -/
def shortDipSeries : List (ℤ × ℚ) :=
  [(0, 100), (1, 90), (2, 100), (3, 100), (4, 100)]

/-- C3 counterexample: the two segmentations do not share the
insufficient-data cutoff: on a five-point series with a −10% dip and
threshold −5, `identify_drawdowns` (cutoff: fewer than 5 points) reports one
episode while `analyze_drawdown_profile` (cutoff: fewer than 10 points)
reports the empty result. -/
theorem segmentation_cutoff_counterexample :
    (identify_drawdowns shortDipSeries (-5)).length = 1 ∧
      analyze_drawdown_profile shortDipSeries (-5) = none := by
  constructor
  · norm_num [identify_drawdowns, shortDipSeries, ddSeries, ddGo, idStep,
      closeEpisode, List.insertionSort, List.orderedInsert]
  · norm_num [analyze_drawdown_profile, shortDipSeries]

/-- C3 amended: the two segmentations apply the same episode logic but with
different insufficient-data cutoffs (5 points for `identify_drawdowns`, 10
for `analyze_drawdown_profile`); on every series long enough for both
(length ≥ 10) and every threshold, the multiset of episodes agrees — same
count, same start index, same most-negative drawdown, and same end index,
reading the `none` end of `identify_drawdowns`' still-active trailing
episode as the series' last index, which is what `analyze_drawdown_profile`
stores there. -/
theorem segmentation_equivalence (equity : List (ℤ × ℚ)) (thr : ℚ) :
    (equity.length < 5 → identify_drawdowns equity thr = []) ∧
      (equity.length < 10 → analyze_drawdown_profile equity thr = none) ∧
      (10 ≤ equity.length →
        ∃ stats, analyze_drawdown_profile equity thr = some stats ∧
          ((identify_drawdowns equity thr).map
              (idProj ((equity.getLast?.map (fun p => p.1)).getD 0)) :
            Multiset (ℤ × ℤ × ℚ)) =
            (stats.drawdowns.map profProj : Multiset (ℤ × ℤ × ℚ))) := by
  refine ⟨?_, ?_, ?_⟩
  · intro h
    unfold identify_drawdowns
    rw [if_pos h]
  · intro h
    unfold analyze_drawdown_profile
    rw [if_pos h]
  · intro h10
    have h5 : ¬(equity.length < 5) := by omega
    have h10' : ¬(equity.length < 10) := by omega
    have hddne : ddSeries equity ≠ [] := by
      intro hx
      have hl := ddSeries_length equity
      rw [hx] at hl
      simp at hl
      omega
    obtain ⟨x, hlast⟩ := Option.isSome_iff_exists.mp (List.getLast?_isSome.mpr hddne)
    obtain ⟨ld, le, lv⟩ := x
    have hanchor : (equity.getLast?.map (fun p => p.1)).getD 0 = ld := by
      have h1 := ddSeries_getLast equity
      rw [hlast] at h1
      rw [← h1]
      rfl
    have hsim := simRel_foldl thr ld (ddSeries equity)
      ⟨false, 0, 0, 0, 0, 0, []⟩ ⟨false, 0, 0, []⟩
      ⟨rfl, fun hc => absurd hc (by simp), rfl⟩
    obtain ⟨hdd, hinfo, heps⟩ := hsim
    have hfold : (calculate_drawdown equity).foldl (profStep thr) ⟨false, 0, 0, []⟩ =
        (ddSeries equity).foldl (fun acc x => profStep thr acc (x.1, x.2.2))
          ⟨false, 0, 0, []⟩ := by
      rw [calculate_drawdown_eq_map, List.foldl_map]
    have hcdlast : (calculate_drawdown equity).getLast? = some (ld, lv) := by
      rw [calculate_drawdown_eq_map, List.getLast?_map, hlast]
      rfl
    rw [hanchor]
    simp only [identify_drawdowns, analyze_drawdown_profile]
    rw [if_neg h5, if_neg h10', hlast, hcdlast, hfold]
    set sF := (ddSeries equity).foldl (idStep thr) ⟨false, 0, 0, 0, 0, 0, []⟩ with hsF
    set tF := (ddSeries equity).foldl (fun acc x => profStep thr acc (x.1, x.2.2))
      ⟨false, 0, 0, []⟩ with htF
    set epsI := (if sF.inDD then sF.eps ++ [activeEpisode sF ld le] else sF.eps)
      with hepsI
    set epsP := (if tF.inDD then
        tF.eps ++ [⟨tF.startIdx, ld, tF.curDd, ld - tF.startIdx, none⟩]
      else tF.eps) with hepsP
    have hfull : epsI.map (idProj ld) = epsP.map profProj := by
      rw [hepsI, hepsP]
      cases htf : tF.inDD with
      | false =>
        have hsf : sF.inDD = false := hdd.trans htf
        rw [if_neg (by rw [hsf]; simp), if_neg (by simp)]
        exact heps
      | true =>
        have hsf : sF.inDD = true := hdd.trans htf
        obtain ⟨hstart, hcur⟩ := hinfo hsf
        rw [if_pos hsf, if_pos rfl, List.map_append, List.map_append, heps]
        congr 1
        simp [idProj, profProj, activeEpisode, hstart, hcur]
    have hms : ((List.insertionSort
          (fun a b => a.max_drawdown_pct ≤ b.max_drawdown_pct) epsI).map (idProj ld) :
        Multiset (ℤ × ℤ × ℚ)) = (epsP.map profProj : Multiset (ℤ × ℤ × ℚ)) := by
      apply Multiset.coe_eq_coe.mpr
      exact hfull ▸ ((List.perm_insertionSort _ epsI).map (idProj ld))
    cases hemp : epsP.isEmpty with
    | true =>
      refine ⟨⟨0, 0, 0, 0, 0, []⟩, by rw [if_pos rfl], ?_⟩
      have hnil : epsP = [] := by simpa [List.isEmpty_iff] using hemp
      rw [hnil] at hms
      exact hms
    | false =>
      exact ⟨_, by rw [if_neg (by simp)], hms⟩

/-- A ten-point equity series with two drawdown episodes, one of them
unrecovered at the end. -/
def tenPointSeries : List (ℤ × ℚ) :=
  [(0, 100), (1, 95), (2, 90), (3, 95), (4, 101), (5, 100), (6, 90), (7, 85),
    (8, 95), (9, 90)]

/-- Witness for C3 (amended): the agreement conjunct at a concrete
ten-point series. -/
theorem segmentation_equivalence_witness :
    ∃ stats, analyze_drawdown_profile tenPointSeries (-5) = some stats ∧
      ((identify_drawdowns tenPointSeries (-5)).map
          (idProj ((tenPointSeries.getLast?.map (fun p => p.1)).getD 0)) :
        Multiset (ℤ × ℤ × ℚ)) =
        (stats.drawdowns.map profProj : Multiset (ℤ × ℤ × ℚ)) :=
  (segmentation_equivalence tenPointSeries (-5)).2.2 (by decide)
